import Mathlib

/-!
Verification of the two pure loan calculators of the Loan-Rate-Calculation
repository (`src/app/page.tsx`): `calculateCarLoan` (flat-rate vehicle loan)
and `calculateHomeLoan` (amortizing mortgage loan).

The JavaScript numbers are modelled as exact rationals (`ℚ`); the decimal
literals of the source (`0.07`) become the exact rationals they denote
(`7/100`).  The loan term in years is an integer in every caller (the UI
sliders step by whole years), so `years : ℕ`; this also makes the exponent
of the annuity formula a natural number.  `Math.max` becomes `max`,
JavaScript `/` becomes rational division (every divisor reached by the code
is shown nonzero where that matters).
-/

inductive CarType where
  | new
  | used
deriving DecidableEq

structure CarLoanResult where
  downAmount : ℚ
  financeAmount : ℚ
  totalInterest : ℚ
  totalDebt : ℚ
  months : ℕ
  monthlyBase : ℚ
  vatPerMonth : ℚ
  monthlyTotal : ℚ
  totalPaid : ℚ
deriving DecidableEq

/-- Embedding of `calculateCarLoan` from `src/app/page.tsx` (lines 63-75). -/
def calculateCarLoan (price downPercent interestRate : ℚ) (years : ℕ)
    (carType : CarType) : CarLoanResult :=
  let downAmount := price * (downPercent / 100)
  let financeAmount := max 0 (price - downAmount)
  let totalInterest := financeAmount * (interestRate / 100) * (years : ℚ)
  let totalDebt := financeAmount + totalInterest
  let months : ℕ := max 1 (years * 12)
  let monthlyBase := totalDebt / (months : ℚ)
  let vatPerMonth := if carType = CarType.used then monthlyBase * (7 / 100) else 0
  let monthlyTotal := monthlyBase + vatPerMonth
  let totalPaid := downAmount + monthlyTotal * (months : ℚ)
  { downAmount := downAmount, financeAmount := financeAmount,
    totalInterest := totalInterest, totalDebt := totalDebt, months := months,
    monthlyBase := monthlyBase, vatPerMonth := vatPerMonth,
    monthlyTotal := monthlyTotal, totalPaid := totalPaid }

structure HomeLoanResult where
  downAmount : ℚ
  principal : ℚ
  months : ℕ
  monthlyRate : ℚ
  monthlyPayment : ℚ
  totalPayment : ℚ
  totalInterest : ℚ
  firstMonthInterest : ℚ
deriving DecidableEq

/-- Embedding of `calculateHomeLoan` from `src/app/page.tsx` (lines 77-98). -/
def calculateHomeLoan (price downPercent interestRate : ℚ) (years : ℕ)
    (daysInMonth : ℚ) : HomeLoanResult :=
  let downAmount := price * (downPercent / 100)
  let principal := max 0 (price - downAmount)
  let months : ℕ := max 1 (years * 12)
  let monthlyRate := (interestRate / 100) / 12
  let monthlyPayment :=
    if principal > 0 then
      if monthlyRate = 0 then principal / (months : ℚ)
      else
        let pow := (1 + monthlyRate) ^ months
        principal * ((monthlyRate * pow) / (pow - 1))
    else 0
  let totalPayment := monthlyPayment * (months : ℚ)
  let totalInterest := max 0 (totalPayment - principal)
  let firstMonthInterest := (principal * (interestRate / 100) * daysInMonth) / 365
  { downAmount := downAmount, principal := principal, months := months,
    monthlyRate := monthlyRate, monthlyPayment := monthlyPayment,
    totalPayment := totalPayment, totalInterest := totalInterest,
    firstMonthInterest := firstMonthInterest }

@[simp] lemma calculateCarLoan_downAmount (price downPercent interestRate : ℚ)
    (years : ℕ) (carType : CarType) :
    (calculateCarLoan price downPercent interestRate years carType).downAmount =
      price * (downPercent / 100) := rfl

@[simp] lemma calculateCarLoan_financeAmount (price downPercent interestRate : ℚ)
    (years : ℕ) (carType : CarType) :
    (calculateCarLoan price downPercent interestRate years carType).financeAmount =
      max 0 (price - price * (downPercent / 100)) := rfl

@[simp] lemma calculateCarLoan_totalInterest (price downPercent interestRate : ℚ)
    (years : ℕ) (carType : CarType) :
    (calculateCarLoan price downPercent interestRate years carType).totalInterest =
      max 0 (price - price * (downPercent / 100)) * (interestRate / 100) * (years : ℚ) := rfl

@[simp] lemma calculateCarLoan_totalDebt (price downPercent interestRate : ℚ)
    (years : ℕ) (carType : CarType) :
    (calculateCarLoan price downPercent interestRate years carType).totalDebt =
      (calculateCarLoan price downPercent interestRate years carType).financeAmount +
        (calculateCarLoan price downPercent interestRate years carType).totalInterest := rfl

@[simp] lemma calculateCarLoan_months (price downPercent interestRate : ℚ)
    (years : ℕ) (carType : CarType) :
    (calculateCarLoan price downPercent interestRate years carType).months =
      max 1 (years * 12) := rfl

@[simp] lemma calculateCarLoan_monthlyBase (price downPercent interestRate : ℚ)
    (years : ℕ) (carType : CarType) :
    (calculateCarLoan price downPercent interestRate years carType).monthlyBase =
      (calculateCarLoan price downPercent interestRate years carType).totalDebt /
        ((max 1 (years * 12) : ℕ) : ℚ) := rfl

@[simp] lemma calculateCarLoan_vatPerMonth (price downPercent interestRate : ℚ)
    (years : ℕ) (carType : CarType) :
    (calculateCarLoan price downPercent interestRate years carType).vatPerMonth =
      (if carType = CarType.used then
        (calculateCarLoan price downPercent interestRate years carType).monthlyBase * (7 / 100)
      else 0) := rfl

@[simp] lemma calculateCarLoan_monthlyTotal (price downPercent interestRate : ℚ)
    (years : ℕ) (carType : CarType) :
    (calculateCarLoan price downPercent interestRate years carType).monthlyTotal =
      (calculateCarLoan price downPercent interestRate years carType).monthlyBase +
        (calculateCarLoan price downPercent interestRate years carType).vatPerMonth := rfl

@[simp] lemma calculateCarLoan_totalPaid (price downPercent interestRate : ℚ)
    (years : ℕ) (carType : CarType) :
    (calculateCarLoan price downPercent interestRate years carType).totalPaid =
      price * (downPercent / 100) +
        (calculateCarLoan price downPercent interestRate years carType).monthlyTotal *
          ((max 1 (years * 12) : ℕ) : ℚ) := rfl

@[simp] lemma calculateHomeLoan_downAmount (price downPercent interestRate : ℚ)
    (years : ℕ) (days : ℚ) :
    (calculateHomeLoan price downPercent interestRate years days).downAmount =
      price * (downPercent / 100) := rfl

@[simp] lemma calculateHomeLoan_principal (price downPercent interestRate : ℚ)
    (years : ℕ) (days : ℚ) :
    (calculateHomeLoan price downPercent interestRate years days).principal =
      max 0 (price - price * (downPercent / 100)) := rfl

@[simp] lemma calculateHomeLoan_months (price downPercent interestRate : ℚ)
    (years : ℕ) (days : ℚ) :
    (calculateHomeLoan price downPercent interestRate years days).months =
      max 1 (years * 12) := rfl

@[simp] lemma calculateHomeLoan_monthlyRate (price downPercent interestRate : ℚ)
    (years : ℕ) (days : ℚ) :
    (calculateHomeLoan price downPercent interestRate years days).monthlyRate =
      (interestRate / 100) / 12 := rfl

@[simp] lemma calculateHomeLoan_monthlyPayment (price downPercent interestRate : ℚ)
    (years : ℕ) (days : ℚ) :
    (calculateHomeLoan price downPercent interestRate years days).monthlyPayment =
      (if 0 < max 0 (price - price * (downPercent / 100)) then
        if (interestRate / 100) / 12 = 0 then
          max 0 (price - price * (downPercent / 100)) / ((max 1 (years * 12) : ℕ) : ℚ)
        else
          max 0 (price - price * (downPercent / 100)) *
            ((((interestRate / 100) / 12) *
                (1 + (interestRate / 100) / 12) ^ (max 1 (years * 12))) /
              ((1 + (interestRate / 100) / 12) ^ (max 1 (years * 12)) - 1))
      else 0) := rfl

@[simp] lemma calculateHomeLoan_totalPayment (price downPercent interestRate : ℚ)
    (years : ℕ) (days : ℚ) :
    (calculateHomeLoan price downPercent interestRate years days).totalPayment =
      (calculateHomeLoan price downPercent interestRate years days).monthlyPayment *
        ((max 1 (years * 12) : ℕ) : ℚ) := rfl

@[simp] lemma calculateHomeLoan_totalInterest (price downPercent interestRate : ℚ)
    (years : ℕ) (days : ℚ) :
    (calculateHomeLoan price downPercent interestRate years days).totalInterest =
      max 0 ((calculateHomeLoan price downPercent interestRate years days).totalPayment -
        max 0 (price - price * (downPercent / 100))) := rfl

@[simp] lemma calculateHomeLoan_firstMonthInterest (price downPercent interestRate : ℚ)
    (years : ℕ) (days : ℚ) :
    (calculateHomeLoan price downPercent interestRate years days).firstMonthInterest =
      (max 0 (price - price * (downPercent / 100)) * (interestRate / 100) * days) / 365 := rfl

/-- The guard under which `calculateHomeLoan` evaluates the annuity formula:
the branch `principal > 0` and `monthlyRate ≠ 0` of the source. -/
def homeUsesAnnuity (price downPercent interestRate : ℚ) : Prop :=
  0 < max 0 (price - price * (downPercent / 100)) ∧ (interestRate / 100) / 12 ≠ 0

instance (price downPercent interestRate : ℚ) :
    Decidable (homeUsesAnnuity price downPercent interestRate) := by
  unfold homeUsesAnnuity; infer_instance

/-- The divisor of the annuity formula as evaluated by the source:
`(1 + monthlyRate) ** months - 1`. -/
def homeAnnuityDivisor (interestRate : ℚ) (years : ℕ) : ℚ :=
  (1 + (interestRate / 100) / 12) ^ (max 1 (years * 12)) - 1

/-- C4: Scenario A — flat-rate, price 800000, down 25%, rate 2.5%, 5 years,
variant `new`: downAmount 200000, financeAmount 600000, totalInterest 75000,
totalDebt 675000, months 60, monthlyBase 11250, taxPerMonth 0,
monthlyTotal 11250, totalPaid 875000; and Scenario B, variant `used`:
monthlyBase 11250, taxPerMonth 787.5, monthlyTotal 12037.5,
totalPaid 922250. -/
theorem scenarioA_scenarioB_flat_rate :
    calculateCarLoan 800000 25 (5/2) 5 CarType.new =
      { downAmount := 200000, financeAmount := 600000, totalInterest := 75000,
        totalDebt := 675000, months := 60, monthlyBase := 11250,
        vatPerMonth := 0, monthlyTotal := 11250, totalPaid := 875000 } ∧
    calculateCarLoan 800000 25 (5/2) 5 CarType.used =
      { downAmount := 200000, financeAmount := 600000, totalInterest := 75000,
        totalDebt := 675000, months := 60, monthlyBase := 11250,
        vatPerMonth := 1575/2, monthlyTotal := 24075/2, totalPaid := 922250 } := by
  constructor <;>
    (unfold calculateCarLoan;
     simp only [CarLoanResult.mk.injEq, reduceCtorEq, if_false, if_true, ite_self,
       reduceIte];
     norm_num)

/-- C1: under the preconditions price ≥ 0, downPercent ≥ 0, annualRatePercent ≥ 0
(and an integer term), `calculateCarLoan` returns exactly the record given by the
spec's nine-step flat-rate algorithm. -/
theorem flat_rate_matches_spec (price downPercent interestRate : ℚ) (years : ℕ)
    (carType : CarType) (hp : 0 ≤ price) (hd : 0 ≤ downPercent)
    (hr : 0 ≤ interestRate) :
    (calculateCarLoan price downPercent interestRate years carType).downAmount =
        price * downPercent / 100 ∧
    (calculateCarLoan price downPercent interestRate years carType).financeAmount =
        max 0 (price -
          (calculateCarLoan price downPercent interestRate years carType).downAmount) ∧
    (calculateCarLoan price downPercent interestRate years carType).totalInterest =
        (calculateCarLoan price downPercent interestRate years carType).financeAmount *
          (interestRate / 100) * (years : ℚ) ∧
    (calculateCarLoan price downPercent interestRate years carType).totalDebt =
        (calculateCarLoan price downPercent interestRate years carType).financeAmount +
          (calculateCarLoan price downPercent interestRate years carType).totalInterest ∧
    (calculateCarLoan price downPercent interestRate years carType).months =
        max 1 (12 * years) ∧
    (calculateCarLoan price downPercent interestRate years carType).monthlyBase =
        (calculateCarLoan price downPercent interestRate years carType).totalDebt /
          ((calculateCarLoan price downPercent interestRate years carType).months : ℚ) ∧
    (calculateCarLoan price downPercent interestRate years carType).vatPerMonth =
        (if carType = CarType.used then
          (7 / 100) *
            (calculateCarLoan price downPercent interestRate years carType).monthlyBase
        else 0) ∧
    (calculateCarLoan price downPercent interestRate years carType).monthlyTotal =
        (calculateCarLoan price downPercent interestRate years carType).monthlyBase +
          (calculateCarLoan price downPercent interestRate years carType).vatPerMonth ∧
    (calculateCarLoan price downPercent interestRate years carType).totalPaid =
        (calculateCarLoan price downPercent interestRate years carType).downAmount +
          (calculateCarLoan price downPercent interestRate years carType).monthlyTotal *
            ((calculateCarLoan price downPercent interestRate years carType).months : ℚ) := by
  unfold calculateCarLoan
  refine ⟨by ring, rfl, rfl, rfl, by simp [Nat.mul_comm], rfl, ?_, rfl, rfl⟩
  cases carType <;> simp <;> ring

/-- Witness for C1: the nine-step agreement instantiated at Scenario A's input. -/
theorem flat_rate_matches_spec_witness :
    (calculateCarLoan 800000 25 (5/2) 5 CarType.new).downAmount =
        800000 * 25 / 100 ∧
    (calculateCarLoan 800000 25 (5/2) 5 CarType.new).financeAmount =
        max 0 (800000 - (calculateCarLoan 800000 25 (5/2) 5 CarType.new).downAmount) := by
  have h := flat_rate_matches_spec 800000 25 (5/2) 5 CarType.new
    (by norm_num) (by norm_num) (by norm_num)
  exact ⟨h.1, h.2.1⟩

/-- C10: for fixed price, downPercent, rate and variant, the flat-rate
`totalInterest` scales linearly with the term: doubling the years doubles the
total interest, unaffected by the `max 1` floor on months. -/
theorem flat_rate_interest_linear_in_term (price downPercent interestRate : ℚ)
    (years : ℕ) (carType : CarType) :
    (calculateCarLoan price downPercent interestRate (2 * years) carType).totalInterest =
      2 * (calculateCarLoan price downPercent interestRate years carType).totalInterest := by
  unfold calculateCarLoan
  push_cast
  ring

/-- C2: the amortizing calculator's monthly payment follows exactly the spec's
three-way branch (zero principal, zero monthly rate, annuity formula), with
months = max(1, 12·years), monthlyRate = (rate/100)/12, and monthlyRate = 0
exactly when the annual rate is 0. -/
theorem home_monthly_payment_branches (price downPercent interestRate : ℚ)
    (years : ℕ) (days : ℚ) :
    (calculateHomeLoan price downPercent interestRate years days).months =
        max 1 (12 * years) ∧
    (calculateHomeLoan price downPercent interestRate years days).monthlyRate =
        (interestRate / 100) / 12 ∧
    ((calculateHomeLoan price downPercent interestRate years days).monthlyRate = 0 ↔
        interestRate = 0) ∧
    (calculateHomeLoan price downPercent interestRate years days).monthlyPayment =
      (if (calculateHomeLoan price downPercent interestRate years days).principal = 0 then
        0
      else if (calculateHomeLoan price downPercent interestRate years days).monthlyRate = 0 then
        (calculateHomeLoan price downPercent interestRate years days).principal /
          ((calculateHomeLoan price downPercent interestRate years days).months : ℚ)
      else
        (calculateHomeLoan price downPercent interestRate years days).principal *
          (((calculateHomeLoan price downPercent interestRate years days).monthlyRate *
              (1 + (calculateHomeLoan price downPercent interestRate years days).monthlyRate) ^
                (calculateHomeLoan price downPercent interestRate years days).months) /
            ((1 + (calculateHomeLoan price downPercent interestRate years days).monthlyRate) ^
                (calculateHomeLoan price downPercent interestRate years days).months - 1))) := by
  refine ⟨by simp [Nat.mul_comm], rfl, ?_, ?_⟩
  · rw [calculateHomeLoan_monthlyRate]
    constructor
    · intro h
      field_simp at h
      exact h
    · intro h
      simp [h]
  · rw [calculateHomeLoan_monthlyPayment, calculateHomeLoan_principal,
      calculateHomeLoan_monthlyRate, calculateHomeLoan_months]
    set P := max 0 (price - price * (downPercent / 100)) with hP
    have hP0 : 0 ≤ P := le_max_left 0 _
    by_cases h : P = 0
    · simp [h]
    · have hpos : 0 < P := lt_of_le_of_ne hP0 (Ne.symm h)
      simp only [if_pos hpos, if_neg h]


/-- C3 counterexample: at Scenario C's input (price 3000000, down 10%, rate 3%,
30 years, 31 days) the monthly payment is not within half a cent of the claimed
11384.35 (exact arithmetic gives ≈ 11383.31), and the first-month interest is not
within half a cent of the claimed 6880.27 (the formula 2700000·0.03·31/365 gives
≈ 6879.45). -/
theorem scenarioC_claimed_values_false :
    ¬ (|(calculateHomeLoan 3000000 10 3 30 31).monthlyPayment - 1138435/100| < 1/200) ∧
    ¬ (|(calculateHomeLoan 3000000 10 3 30 31).firstMonthInterest - 688027/100| < 1/200) := by
  constructor
  · intro h1
    rw [abs_sub_lt_iff] at h1
    have h2 := h1.2
    rw [calculateHomeLoan_monthlyPayment] at h2
    norm_num at h2
  · intro h1
    rw [abs_sub_lt_iff] at h1
    have h2 := h1.2
    rw [calculateHomeLoan_firstMonthInterest] at h2
    norm_num at h2

/-- C3 amended: Scenario C returns downAmount 300000, principal 2700000,
months 360, monthlyRate 0.0025, monthlyPayment within half a cent of 11383.31
(standard PMT formula), and firstMonthInterest = 2700000 × 0.03 × 31 / 365
= 502200/73, within half a cent of 6879.45. -/
theorem scenarioC_amortizing :
    (calculateHomeLoan 3000000 10 3 30 31).downAmount = 300000 ∧
    (calculateHomeLoan 3000000 10 3 30 31).principal = 2700000 ∧
    (calculateHomeLoan 3000000 10 3 30 31).months = 360 ∧
    (calculateHomeLoan 3000000 10 3 30 31).monthlyRate = 1/400 ∧
    |(calculateHomeLoan 3000000 10 3 30 31).monthlyPayment - 1138331/100| < 1/200 ∧
    (calculateHomeLoan 3000000 10 3 30 31).firstMonthInterest =
      2700000 * (3/100) * 31 / 365 ∧
    |(calculateHomeLoan 3000000 10 3 30 31).firstMonthInterest - 687945/100| < 1/200 := by
  refine ⟨by rw [calculateHomeLoan_downAmount]; norm_num,
    by rw [calculateHomeLoan_principal]; norm_num,
    by rw [calculateHomeLoan_months]; decide,
    by rw [calculateHomeLoan_monthlyRate]; norm_num,
    ?_, by rw [calculateHomeLoan_firstMonthInterest]; norm_num, ?_⟩
  · rw [calculateHomeLoan_monthlyPayment, abs_sub_lt_iff]
    norm_num
  · rw [calculateHomeLoan_firstMonthInterest, abs_sub_lt_iff]
    norm_num

/-- The monthly payment of `calculateHomeLoan` is non-negative whenever the
annual rate is non-negative (helper shared by the invariant claims). -/
lemma home_monthlyPayment_nonneg (price downPercent interestRate : ℚ)
    (years : ℕ) (days : ℚ) (hr : 0 ≤ interestRate) :
    0 ≤ (calculateHomeLoan price downPercent interestRate years days).monthlyPayment := by
  rw [calculateHomeLoan_monthlyPayment]
  have hR : 0 ≤ (interestRate / 100) / 12 := by positivity
  split_ifs with h1 h2
  · exact div_nonneg (le_of_lt h1) (Nat.cast_nonneg _)
  · have hRpos : 0 < (interestRate / 100) / 12 := lt_of_le_of_ne hR (Ne.symm h2)
    have hq : (1:ℚ) < (1 + (interestRate / 100) / 12) ^ (max 1 (years * 12)) := by
      refine one_lt_pow₀ (by linarith) ?_
      have : 1 ≤ max 1 (years * 12) := le_max_left 1 _
      omega
    have hq1 : (0:ℚ) ≤ (1 + (interestRate / 100) / 12) ^ (max 1 (years * 12)) := by
      linarith
    refine mul_nonneg (le_of_lt h1) (div_nonneg (mul_nonneg hR hq1) (by linarith))
  · exact le_refl 0

/-- C5: under the preconditions (price ≥ 0, 0 ≤ downPercent ≤ 100,
annualRatePercent ≥ 0, termYears ≥ 0, day count ≥ 0), every monetary field of
both result records is non-negative, and the financed principal of both
calculators is exactly 0 whenever the down payment meets or exceeds the price. -/
theorem monetary_outputs_nonneg (price downPercent interestRate : ℚ) (years : ℕ)
    (carType : CarType) (days : ℚ) (hp : 0 ≤ price) (hd0 : 0 ≤ downPercent)
    (hd1 : downPercent ≤ 100) (hr : 0 ≤ interestRate) (hdays : 0 ≤ days) :
    0 ≤ (calculateCarLoan price downPercent interestRate years carType).downAmount ∧
    0 ≤ (calculateCarLoan price downPercent interestRate years carType).financeAmount ∧
    0 ≤ (calculateCarLoan price downPercent interestRate years carType).totalInterest ∧
    0 ≤ (calculateCarLoan price downPercent interestRate years carType).totalDebt ∧
    0 ≤ (calculateCarLoan price downPercent interestRate years carType).monthlyBase ∧
    0 ≤ (calculateCarLoan price downPercent interestRate years carType).vatPerMonth ∧
    0 ≤ (calculateCarLoan price downPercent interestRate years carType).monthlyTotal ∧
    0 ≤ (calculateCarLoan price downPercent interestRate years carType).totalPaid ∧
    0 ≤ (calculateHomeLoan price downPercent interestRate years days).downAmount ∧
    0 ≤ (calculateHomeLoan price downPercent interestRate years days).principal ∧
    0 ≤ (calculateHomeLoan price downPercent interestRate years days).monthlyPayment ∧
    0 ≤ (calculateHomeLoan price downPercent interestRate years days).totalPayment ∧
    0 ≤ (calculateHomeLoan price downPercent interestRate years days).totalInterest ∧
    0 ≤ (calculateHomeLoan price downPercent interestRate years days).firstMonthInterest ∧
    (price ≤ (calculateCarLoan price downPercent interestRate years carType).downAmount →
      (calculateCarLoan price downPercent interestRate years carType).financeAmount = 0 ∧
      (calculateHomeLoan price downPercent interestRate years days).principal = 0) := by
  have hdown : 0 ≤ price * (downPercent / 100) :=
    mul_nonneg hp (div_nonneg hd0 (by norm_num))
  have hfin : (0:ℚ) ≤ max 0 (price - price * (downPercent / 100)) := le_max_left 0 _
  have hti : (0:ℚ) ≤ max 0 (price - price * (downPercent / 100)) *
      (interestRate / 100) * (years : ℚ) :=
    mul_nonneg (mul_nonneg hfin (div_nonneg hr (by norm_num))) (Nat.cast_nonneg years)
  have hdebt : 0 ≤ (calculateCarLoan price downPercent interestRate years carType).totalDebt := by
    rw [calculateCarLoan_totalDebt, calculateCarLoan_financeAmount,
      calculateCarLoan_totalInterest]
    exact add_nonneg hfin hti
  have hbase : 0 ≤ (calculateCarLoan price downPercent interestRate years carType).monthlyBase := by
    rw [calculateCarLoan_monthlyBase]
    exact div_nonneg hdebt (Nat.cast_nonneg _)
  have hvat : 0 ≤ (calculateCarLoan price downPercent interestRate years carType).vatPerMonth := by
    rw [calculateCarLoan_vatPerMonth]
    cases carType with
    | new => simp
    | used => simpa using mul_nonneg hbase (by norm_num : (0:ℚ) ≤ 7 / 100)
  have hmp : 0 ≤ (calculateHomeLoan price downPercent interestRate years days).monthlyPayment :=
    home_monthlyPayment_nonneg price downPercent interestRate years days hr
  refine ⟨by rw [calculateCarLoan_downAmount]; exact hdown,
    by rw [calculateCarLoan_financeAmount]; exact hfin,
    by rw [calculateCarLoan_totalInterest]; exact hti,
    hdebt, hbase, hvat,
    by rw [calculateCarLoan_monthlyTotal]; exact add_nonneg hbase hvat,
    ?_,
    by rw [calculateHomeLoan_downAmount]; exact hdown,
    by rw [calculateHomeLoan_principal]; exact hfin,
    hmp,
    by rw [calculateHomeLoan_totalPayment]; exact mul_nonneg hmp (Nat.cast_nonneg _),
    by rw [calculateHomeLoan_totalInterest]; exact le_max_left 0 _,
    ?_, ?_⟩
  · rw [calculateCarLoan_totalPaid]
    refine add_nonneg hdown (mul_nonneg ?_ (Nat.cast_nonneg _))
    rw [calculateCarLoan_monthlyTotal]
    exact add_nonneg hbase hvat
  · rw [calculateHomeLoan_firstMonthInterest]
    exact div_nonneg (mul_nonneg (mul_nonneg hfin (div_nonneg hr (by norm_num))) hdays)
      (by norm_num)
  · intro hge
    rw [calculateCarLoan_downAmount] at hge
    have hzero : max (0:ℚ) (price - price * (downPercent / 100)) = 0 :=
      max_eq_left (by linarith)
    exact ⟨by rw [calculateCarLoan_financeAmount]; exact hzero,
      by rw [calculateHomeLoan_principal]; exact hzero⟩

/-- Witness for C5 at the Scenario A/B inputs with the `used` variant. -/
theorem monetary_outputs_nonneg_witness :
    0 ≤ (calculateCarLoan 800000 25 (5/2) 5 CarType.used).monthlyTotal ∧
    0 ≤ (calculateHomeLoan 800000 25 (5/2) 5 31).monthlyPayment ∧
    0 ≤ (calculateHomeLoan 800000 25 (5/2) 5 31).firstMonthInterest := by
  have h := monetary_outputs_nonneg 800000 25 (5/2) 5 CarType.used 31
    (by norm_num) (by norm_num) (by norm_num) (by norm_num) (by norm_num)
  exact ⟨h.2.2.2.2.2.2.1, h.2.2.2.2.2.2.2.2.2.2.1, h.2.2.2.2.2.2.2.2.2.2.2.2.2.1⟩

/-- C6 counterexample: the claim that the annuity divisor is nonzero whenever the
annuity branch is used fails: at price 100, downPercent 0, annualRatePercent
−2400, termYears 1 the branch is taken (principal 100 > 0, monthlyRate −2 ≠ 0)
yet (1 + monthlyRate)^months − 1 = (−1)^12 − 1 = 0, so the annuity formula does
divide by zero. -/
theorem annuity_divisor_can_vanish :
    ¬ (∀ (price downPercent interestRate : ℚ) (years : ℕ),
        homeUsesAnnuity price downPercent interestRate →
        homeAnnuityDivisor interestRate years ≠ 0) := by
  intro h
  have hg : homeUsesAnnuity 100 0 (-2400) := by
    constructor <;> norm_num
  have hz : homeAnnuityDivisor (-2400) 1 = 0 := by
    unfold homeAnnuityDivisor
    norm_num
  exact h 100 0 (-2400) 1 hg hz

/-- C6 amended: for every numeric input with annualRatePercent ≠ −2400, the two
calculators never divide by zero: the installment count of both results is
floored at 1, and whenever the annuity branch is taken its divisor
(1 + monthlyRate)^months − 1 is nonzero.  (At annualRatePercent = −2400 the
monthly rate is −2, the base 1 + monthlyRate is −1, and the even month count
makes the divisor exactly zero, as the counterexample shows.) -/
theorem no_division_by_zero (price downPercent interestRate : ℚ) (years : ℕ)
    (carType : CarType) (days : ℚ) (h : interestRate ≠ -2400) :
    1 ≤ (calculateCarLoan price downPercent interestRate years carType).months ∧
    1 ≤ (calculateHomeLoan price downPercent interestRate years days).months ∧
    (homeUsesAnnuity price downPercent interestRate →
      homeAnnuityDivisor interestRate years ≠ 0) := by
  refine ⟨by rw [calculateCarLoan_months]; exact le_max_left 1 _,
    by rw [calculateHomeLoan_months]; exact le_max_left 1 _, ?_⟩
  intro hg hz
  unfold homeAnnuityDivisor at hz
  have hR : (interestRate / 100) / 12 ≠ 0 := hg.2
  have hRne2 : (interestRate / 100) / 12 ≠ -2 := by
    intro hcon
    apply h
    field_simp at hcon
    linarith
  have hn : max 1 (years * 12) ≠ 0 := by
    have h1 : 1 ≤ max 1 (years * 12) := le_max_left 1 _
    omega
  have hpow : (1 + (interestRate / 100) / 12) ^ (max 1 (years * 12)) = 1 := by
    linarith [hz]
  rcases (pow_eq_one_iff_of_ne_zero hn).mp hpow with h1 | ⟨h2, -⟩
  · exact hR (by linarith)
  · exact hRne2 (by linarith)

/-- Witness for the amended C6 at Scenario C's rate. -/
theorem no_division_by_zero_witness :
    1 ≤ (calculateCarLoan 3000000 10 3 30 CarType.new).months ∧
    homeAnnuityDivisor 3 30 ≠ 0 := by
  have h := no_division_by_zero 3000000 10 3 30 CarType.new 31 (by norm_num)
  refine ⟨h.1, h.2.2 ?_⟩
  constructor <;> norm_num

/-- C7: with downPercent = 100 (full down payment) and price ≥ 0, rate ≥ 0, the
flat-rate result has financeAmount = 0 and the amortizing result has
principal = 0, and every interest and installment-payment figure of both
results is 0 (the flat-rate totalPaid then consists of the down payment alone). -/
theorem full_down_payment_zeroes (price interestRate : ℚ) (years : ℕ)
    (carType : CarType) (days : ℚ) (hp : 0 ≤ price) (hr : 0 ≤ interestRate) :
    (calculateCarLoan price 100 interestRate years carType).financeAmount = 0 ∧
    (calculateHomeLoan price 100 interestRate years days).principal = 0 ∧
    (calculateCarLoan price 100 interestRate years carType).totalInterest = 0 ∧
    (calculateCarLoan price 100 interestRate years carType).totalDebt = 0 ∧
    (calculateCarLoan price 100 interestRate years carType).monthlyBase = 0 ∧
    (calculateCarLoan price 100 interestRate years carType).vatPerMonth = 0 ∧
    (calculateCarLoan price 100 interestRate years carType).monthlyTotal = 0 ∧
    (calculateCarLoan price 100 interestRate years carType).totalPaid =
      (calculateCarLoan price 100 interestRate years carType).downAmount ∧
    (calculateHomeLoan price 100 interestRate years days).monthlyPayment = 0 ∧
    (calculateHomeLoan price 100 interestRate years days).totalPayment = 0 ∧
    (calculateHomeLoan price 100 interestRate years days).totalInterest = 0 ∧
    (calculateHomeLoan price 100 interestRate years days).firstMonthInterest = 0 := by
  have hkey : max (0:ℚ) (price - price * (100 / 100)) = 0 := by
    norm_num
  simp [hkey]

/-- Witness for C7 at price 500000, rate 3%, 5 years, used variant, 31 days. -/
theorem full_down_payment_zeroes_witness :
    (calculateCarLoan 500000 100 3 5 CarType.used).financeAmount = 0 ∧
    (calculateHomeLoan 500000 100 3 5 31).monthlyPayment = 0 := by
  have h := full_down_payment_zeroes 500000 3 5 CarType.used 31 (by norm_num) (by norm_num)
  exact ⟨h.1, h.2.2.2.2.2.2.2.2.1⟩

/-- C8: for day counts in {28, 29, 30, 31}, the first-month interest equals
principal × (rate/100) × days / 365 with the denominator fixed at 365, and
changing the day count while holding the other inputs fixed changes no result
field other than firstMonthInterest. -/
theorem first_month_interest_day_count (price downPercent interestRate : ℚ)
    (years : ℕ) (days1 days2 : ℚ)
    (h1 : days1 = 28 ∨ days1 = 29 ∨ days1 = 30 ∨ days1 = 31)
    (h2 : days2 = 28 ∨ days2 = 29 ∨ days2 = 30 ∨ days2 = 31) :
    (calculateHomeLoan price downPercent interestRate years days1).firstMonthInterest =
      (calculateHomeLoan price downPercent interestRate years days1).principal *
        (interestRate / 100) * days1 / 365 ∧
    (calculateHomeLoan price downPercent interestRate years days1).downAmount =
      (calculateHomeLoan price downPercent interestRate years days2).downAmount ∧
    (calculateHomeLoan price downPercent interestRate years days1).principal =
      (calculateHomeLoan price downPercent interestRate years days2).principal ∧
    (calculateHomeLoan price downPercent interestRate years days1).months =
      (calculateHomeLoan price downPercent interestRate years days2).months ∧
    (calculateHomeLoan price downPercent interestRate years days1).monthlyRate =
      (calculateHomeLoan price downPercent interestRate years days2).monthlyRate ∧
    (calculateHomeLoan price downPercent interestRate years days1).monthlyPayment =
      (calculateHomeLoan price downPercent interestRate years days2).monthlyPayment ∧
    (calculateHomeLoan price downPercent interestRate years days1).totalPayment =
      (calculateHomeLoan price downPercent interestRate years days2).totalPayment ∧
    (calculateHomeLoan price downPercent interestRate years days1).totalInterest =
      (calculateHomeLoan price downPercent interestRate years days2).totalInterest :=
  ⟨rfl, rfl, rfl, rfl, rfl, rfl, rfl, rfl⟩

/-- Witness for C8 at Scenario C's input with day counts 31 and 28. -/
theorem first_month_interest_day_count_witness :
    (calculateHomeLoan 3000000 10 3 30 31).firstMonthInterest =
      (calculateHomeLoan 3000000 10 3 30 31).principal * (3 / 100) * 31 / 365 ∧
    (calculateHomeLoan 3000000 10 3 30 31).monthlyPayment =
      (calculateHomeLoan 3000000 10 3 30 28).monthlyPayment := by
  have h := first_month_interest_day_count 3000000 10 3 30 31 28
    (by norm_num) (by norm_num)
  exact ⟨h.1, h.2.2.2.2.2.1⟩

/-- Key inequality for C9: for a non-negative periodic rate r,
(1+r)^n − 1 ≤ n·r·(1+r)^n. -/
lemma pow_sub_one_le_mul_pow (r : ℚ) (hr : 0 ≤ r) (n : ℕ) :
    (1 + r) ^ n - 1 ≤ (n : ℚ) * r * (1 + r) ^ n := by
  induction n with
  | zero => simp
  | succ k ih =>
    have h1r : (0:ℚ) ≤ 1 + r := by linarith
    have hq : (1:ℚ) ≤ (1 + r) ^ (k + 1) := one_le_pow₀ (by linarith)
    have step : ((1 + r) ^ k - 1) * (1 + r) ≤ ((k : ℚ) * r * (1 + r) ^ k) * (1 + r) :=
      mul_le_mul_of_nonneg_right ih h1r
    have expand : (1 + r) ^ (k + 1) - 1 = ((1 + r) ^ k - 1) * (1 + r) + r := by ring
    have collect : ((k : ℚ) * r * (1 + r) ^ k) * (1 + r) = (k : ℚ) * r * (1 + r) ^ (k + 1) := by
      ring
    have hrq : r ≤ r * (1 + r) ^ (k + 1) := by
      nlinarith
    push_cast
    calc (1 + r) ^ (k + 1) - 1 = ((1 + r) ^ k - 1) * (1 + r) + r := expand
      _ ≤ (k : ℚ) * r * (1 + r) ^ (k + 1) + r := by
          rw [← collect]; linarith [step]
      _ ≤ (k : ℚ) * r * (1 + r) ^ (k + 1) + r * (1 + r) ^ (k + 1) := by linarith [hrq]
      _ = ((k : ℚ) + 1) * r * (1 + r) ^ (k + 1) := by ring

/-- C9: in exact rational arithmetic, under the preconditions, the amortizing
calculator's total payment is at least the principal, so the zero floor in
totalInterest = max(0, totalPayment − principal) never binds:
totalInterest = totalPayment − principal exactly. -/
theorem home_total_payment_ge_principal (price downPercent interestRate : ℚ)
    (years : ℕ) (days : ℚ) (hp : 0 ≤ price) (hd0 : 0 ≤ downPercent)
    (hd1 : downPercent ≤ 100) (hr : 0 ≤ interestRate) :
    (calculateHomeLoan price downPercent interestRate years days).principal ≤
      (calculateHomeLoan price downPercent interestRate years days).totalPayment ∧
    (calculateHomeLoan price downPercent interestRate years days).totalInterest =
      (calculateHomeLoan price downPercent interestRate years days).totalPayment -
        (calculateHomeLoan price downPercent interestRate years days).principal := by
  have hmain : (calculateHomeLoan price downPercent interestRate years days).principal ≤
      (calculateHomeLoan price downPercent interestRate years days).totalPayment := by
    rw [calculateHomeLoan_totalPayment, calculateHomeLoan_monthlyPayment,
      calculateHomeLoan_principal]
    have hncast : (1:ℚ) ≤ ((max 1 (years * 12) : ℕ) : ℚ) := by
      exact_mod_cast le_max_left 1 (years * 12)
    have hnne : ((max 1 (years * 12) : ℕ) : ℚ) ≠ 0 := by linarith
    split_ifs with hP hR
    · rw [div_mul_cancel₀ _ hnne]
    · set R := (interestRate / 100) / 12 with hRdef
      set n := max 1 (years * 12) with hndef
      set P := max (0:ℚ) (price - price * (downPercent / 100)) with hPdef
      have hR0 : 0 ≤ R := by rw [hRdef]; positivity
      have hRpos : 0 < R := lt_of_le_of_ne hR0 (Ne.symm hR)
      have hq1 : (1:ℚ) < (1 + R) ^ n := by
        refine one_lt_pow₀ (by linarith) ?_
        have h1 : 1 ≤ n := le_max_left 1 _
        omega
      have hkey : (1 + R) ^ n - 1 ≤ (n : ℚ) * R * (1 + R) ^ n :=
        pow_sub_one_le_mul_pow R hR0 n
      have hden : (0:ℚ) < (1 + R) ^ n - 1 := by linarith
      rw [← sub_nonneg]
      have hform : P * (R * (1 + R) ^ n / ((1 + R) ^ n - 1)) * (n : ℚ) - P =
          P * (((n : ℚ) * R * (1 + R) ^ n - ((1 + R) ^ n - 1)) / ((1 + R) ^ n - 1)) := by
        field_simp
        ring
      rw [hform]
      exact mul_nonneg (le_of_lt hP)
        (div_nonneg (by linarith) (le_of_lt hden))
    · push_neg at hP
      have hP0 : max (0:ℚ) (price - price * (downPercent / 100)) = 0 :=
        le_antisymm hP (le_max_left 0 _)
      rw [hP0]
      norm_num
  refine ⟨hmain, ?_⟩
  rw [calculateHomeLoan_totalInterest, ← calculateHomeLoan_principal price downPercent
    interestRate years days]
  exact max_eq_right (sub_nonneg.mpr hmain)

/-- Witness for C9 at Scenario C's input. -/
theorem home_total_payment_ge_principal_witness :
    (calculateHomeLoan 3000000 10 3 30 31).principal ≤
      (calculateHomeLoan 3000000 10 3 30 31).totalPayment ∧
    (calculateHomeLoan 3000000 10 3 30 31).totalInterest =
      (calculateHomeLoan 3000000 10 3 30 31).totalPayment -
        (calculateHomeLoan 3000000 10 3 30 31).principal :=
  home_total_payment_ge_principal 3000000 10 3 30 31
    (by norm_num) (by norm_num) (by norm_num) (by norm_num)
